import Mathlib

/-!
Verification of the CSP-Equivalent Portfolio Engine (src/app.py).

The repository's domain logic consists of:
* `csp_equivalent_decision(price, dma)` — a seven-branch threshold cascade
  mapping a price and its 200-day moving average to an (action, sellFraction,
  reason) triple;
* a caller-side post-processing step in the portfolio tab that appends a
  market-wide-extension suffix to the reason string;
* the rotation scorer of the top-100 tab: `score_price`, `score_action`, the
  growth and exposure sub-scores, the market penalty, and the clamp to [0,100].

Python floats are embedded as exact rationals (ℚ); action labels are the
strings the source uses; the integer score is ℤ.
-/

namespace PortfolioEngine

/-! ## Strategy configuration constants (src/app.py lines 23-35) -/

def SELL_L1 : ℚ := 15/100
def SELL_L2 : ℚ := 20/100
def SELL_L3 : ℚ := 30/100

def SELL_L1_PCT : ℚ := 25/100
def SELL_L2_PCT : ℚ := 25/100

def BUY_ZONE_LOW : ℚ := 92/100
def BUY_ZONE_HIGH : ℚ := 97/100
def DEEP_BUY : ℚ := 90/100
def NEAR_DMA : ℚ := 3/100

def NASDAQ_EXTREME : ℚ := 12/100

/-! ## Decision engine (src/app.py lines 71-87) -/

/-- Embedding of `csp_equivalent_decision(price, dma)`: the seven-branch
if/elif cascade of the source, returning (action, sell fraction, reason). -/
def csp_equivalent_decision (price dma : ℚ) : String × ℚ × String :=
  let dist := (price - dma) / dma
  if dist ≥ SELL_L3 then ("HOLD CORE", 0, "Extreme extension")
  else if dist ≥ SELL_L2 then ("SELL PARTIAL", SELL_L2_PCT, ">20% above 200 DMA")
  else if dist ≥ SELL_L1 then ("SELL PARTIAL", SELL_L1_PCT, ">15% above 200 DMA")
  else if |dist| ≤ NEAR_DMA then ("SMALL BUY", 0, "Near 200 DMA")
  else if BUY_ZONE_LOW ≤ price / dma ∧ price / dma ≤ BUY_ZONE_HIGH then
    ("ACCUMULATE", 0, "Inside virtual CSP buy zone")
  else if price < dma * DEEP_BUY then ("AGGRESSIVE BUY", 0, "Deep discount to 200 DMA")
  else ("WAIT", 0, "No edge")

/-- Embedding of the tab-1 per-row post-processing (src/app.py lines 118-121):
the decision is computed and, when the Nasdaq distance exceeds the extreme
threshold and the action starts with "SELL", the market-wide-extension suffix
is appended to the reason. -/
def portfolio_row_decision (nasdaq_dist price dma : ℚ) : String × ℚ × String :=
  let d := csp_equivalent_decision price dma
  if NASDAQ_EXTREME < nasdaq_dist ∧ d.1.startsWith "SELL" = true then
    (d.1, d.2.1, d.2.2 ++ " | Market-wide extension")
  else
    (d.1, d.2.1, d.2.2)

/-! ## Rotation scorer (src/app.py lines 170-208) -/

/-- Embedding of `score_price(dist)` (src/app.py lines 170-175). -/
def score_price (dist : ℚ) : ℤ :=
  if dist ≤ -5 then 40
  else if dist ≤ 0 then 30
  else if dist ≤ 5 then 20
  else if dist ≤ 10 then 10
  else 0

/-- Embedding of `score_action(a)` (src/app.py lines 177-183): dictionary
lookup with default 0 for any other string. -/
def score_action (a : String) : ℤ :=
  if a = "AGGRESSIVE BUY" then 25
  else if a = "ACCUMULATE" then 20
  else if a = "SMALL BUY" then 15
  else if a = "WAIT" then 5
  else 0

/-- The pre-penalty sub-score sum of the rotation engine
(src/app.py lines 197-202): price, action, growth and exposure sub-scores. -/
def rotation_subtotal (dist_pct : ℚ) (a : String) (growth_pct exposure : ℚ) : ℤ :=
  score_price dist_pct + score_action a
    + (if growth_pct ≥ 15 then 15 else 5)
    + (if exposure ≥ 70 then 15 else 5)

/-- Full rotation score (src/app.py lines 197-208): sub-score sum, minus 15
when the market is extended (`nasdaq_dist > NASDAQ_EXTREME`), then clamped to
[0,100] by `max(0, min(100, score))`. -/
def rotation_score (dist_pct : ℚ) (a : String) (growth_pct exposure : ℚ)
    (marketExtended : Bool) : ℤ :=
  let s := rotation_subtotal dist_pct a growth_pct exposure
  let s := if marketExtended then s - 15 else s
  max 0 (min 100 s)

/-! ## Spec-side definitions (for refinement claims)

These follow the wording of the specification, not the source, and are
compared with the source embeddings above. -/

/-- The closed action enumeration named by the spec. -/
inductive SpecAction where
  | HOLD_CORE
  | SELL_PARTIAL
  | SMALL_BUY
  | ACCUMULATE
  | AGGRESSIVE_BUY
  | WAIT
deriving DecidableEq, Repr

/-- The string label the source uses for each spec action. -/
def SpecAction.label : SpecAction → String
  | .HOLD_CORE => "HOLD CORE"
  | .SELL_PARTIAL => "SELL PARTIAL"
  | .SMALL_BUY => "SMALL BUY"
  | .ACCUMULATE => "ACCUMULATE"
  | .AGGRESSIVE_BUY => "AGGRESSIVE BUY"
  | .WAIT => "WAIT"

/-- Spec-side decision table, written from the claim's words: the seven
branches in the stated order, first match winning, with the listed
(action, sellFraction) result of each branch. -/
def specDecide (price movingAverage : ℚ) : SpecAction × ℚ :=
  let distance := (price - movingAverage) / movingAverage
  if distance ≥ 30/100 then (.HOLD_CORE, 0)
  else if distance ≥ 20/100 then (.SELL_PARTIAL, 25/100)
  else if distance ≥ 15/100 then (.SELL_PARTIAL, 25/100)
  else if |distance| ≤ 3/100 then (.SMALL_BUY, 0)
  else if 92/100 ≤ price / movingAverage ∧ price / movingAverage ≤ 97/100 then
    (.ACCUMULATE, 0)
  else if price < movingAverage * (90/100) then (.AGGRESSIVE_BUY, 0)
  else (.WAIT, 0)

/-- Spec-side rotation score, written from the claim's words: clamp to
[0,100] of priceSub + actionSub + growthSub + exposureSub + penalty. -/
def specScore (distancePct : ℚ) (action : String) (growthPct exposureScore : ℚ)
    (marketExtended : Bool) : ℤ :=
  let priceSub : ℤ :=
    if distancePct ≤ -5 then 40
    else if distancePct ≤ 0 then 30
    else if distancePct ≤ 5 then 20
    else if distancePct ≤ 10 then 10
    else 0
  let actionSub : ℤ :=
    if action = "AGGRESSIVE BUY" then 25
    else if action = "ACCUMULATE" then 20
    else if action = "SMALL BUY" then 15
    else if action = "WAIT" then 5
    else 0
  let growthSub : ℤ := if growthPct ≥ 15 then 15 else 5
  let exposureSub : ℤ := if exposureScore ≥ 70 then 15 else 5
  let penalty : ℤ := if marketExtended then -15 else 0
  max 0 (min 100 (priceSub + actionSub + growthSub + exposureSub + penalty))

/-! ## String containment helper -/

/-- `listStarts pat l` holds when `pat` is an initial segment of `l`. -/
def listStarts : List Char → List Char → Bool
  | [], _ => true
  | _ :: _, [] => false
  | a :: as, b :: bs => a = b && listStarts as bs

/-- `strContains hay pat` holds when `pat` occurs as a contiguous substring
of `hay` (case-sensitive, as Python's `in` operator on strings). -/
def strContains (hay pat : String) : Bool :=
  go pat.data hay.data
where
  go (pat : List Char) : List Char → Bool
    | [] => pat.isEmpty
    | c :: cs => listStarts pat (c :: cs) || go pat cs

/-! ## Helper lemmas -/

lemma score_price_nonneg (d : ℚ) : 0 ≤ score_price d := by
  unfold score_price; split_ifs <;> norm_num

lemma score_price_le (d : ℚ) : score_price d ≤ 40 := by
  unfold score_price; split_ifs <;> norm_num

lemma score_action_nonneg (a : String) : 0 ≤ score_action a := by
  unfold score_action; split_ifs <;> norm_num

lemma score_action_le (a : String) : score_action a ≤ 25 := by
  unfold score_action; split_ifs <;> norm_num

lemma rotation_subtotal_le (d : ℚ) (a : String) (g e : ℚ) :
    rotation_subtotal d a g e ≤ 95 := by
  have h1 := score_price_le d
  have h2 := score_action_le a
  unfold rotation_subtotal
  split_ifs <;> omega

lemma rotation_subtotal_ge (d : ℚ) (a : String) (g e : ℚ) :
    10 ≤ rotation_subtotal d a g e := by
  have h1 := score_price_nonneg d
  have h2 := score_action_nonneg a
  unfold rotation_subtotal
  split_ifs <;> omega

lemma append_ne_self (s t : String) (h : t.length ≠ 0) : s ++ t ≠ s := by
  intro hc
  have hl := congrArg String.length hc
  rw [String.length_append] at hl
  omega

/-! ## Claim theorems -/

/-- C1: for every price and every movingAverage > 0, the decision engine
returns the (action, sellFraction) of exactly one of the seven listed
branches, evaluated in the stated order with first match winning: its output
agrees componentwise with the spec-side first-match decision table. -/
theorem decision_matches_spec_table (price movingAverage : ℚ)
    (h : 0 < movingAverage) :
    (csp_equivalent_decision price movingAverage).1
        = (specDecide price movingAverage).1.label ∧
    (csp_equivalent_decision price movingAverage).2.1
        = (specDecide price movingAverage).2 := by
  simp only [csp_equivalent_decision, specDecide, SELL_L1, SELL_L2, SELL_L3,
    SELL_L1_PCT, SELL_L2_PCT, BUY_ZONE_LOW, BUY_ZONE_HIGH, DEEP_BUY, NEAR_DMA]
  split_ifs <;> simp [SpecAction.label]

/-- Witness for C1 at price 130, movingAverage 100. -/
theorem decision_matches_spec_table_witness :
    (0 : ℚ) < 100 ∧
    ((csp_equivalent_decision 130 100).1 = (specDecide 130 100).1.label ∧
     (csp_equivalent_decision 130 100).2.1 = (specDecide 130 100).2) :=
  ⟨by norm_num, decision_matches_spec_table 130 100 (by norm_num)⟩

/-- C2: whenever both the near-average condition and the buy-zone condition
hold, the decision is SMALL BUY with sell fraction 0: the near-average branch
is checked before the buy-zone branch. -/
theorem near_average_beats_buy_zone (price movingAverage : ℚ)
    (hnear : |(price - movingAverage) / movingAverage| ≤ NEAR_DMA)
    (hlo : BUY_ZONE_LOW ≤ price / movingAverage)
    (hhi : price / movingAverage ≤ BUY_ZONE_HIGH) :
    csp_equivalent_decision price movingAverage = ("SMALL BUY", 0, "Near 200 DMA") := by
  have hd := abs_le.mp hnear
  have h2 := hd.2
  simp only [NEAR_DMA] at h2
  simp only [csp_equivalent_decision]
  rw [if_neg (by simp only [SELL_L3]; intro hc; linarith),
      if_neg (by simp only [SELL_L2]; intro hc; linarith),
      if_neg (by simp only [SELL_L1]; intro hc; linarith),
      if_pos hnear]

/-- Witness for C2 at price 97, movingAverage 100 (ratio exactly 0.97). -/
theorem near_average_beats_buy_zone_witness :
    |((97 : ℚ) - 100) / 100| ≤ NEAR_DMA ∧
    BUY_ZONE_LOW ≤ (97 : ℚ) / 100 ∧
    (97 : ℚ) / 100 ≤ BUY_ZONE_HIGH ∧
    csp_equivalent_decision 97 100 = ("SMALL BUY", 0, "Near 200 DMA") :=
  ⟨by norm_num [NEAR_DMA, abs_le], by norm_num [BUY_ZONE_LOW], by norm_num [BUY_ZONE_HIGH],
   near_average_beats_buy_zone 97 100 (by norm_num [NEAR_DMA, abs_le])
     (by norm_num [BUY_ZONE_LOW]) (by norm_num [BUY_ZONE_HIGH])⟩

/-- C3: the rotation score equals the spec-side composite: clamp to [0,100]
of priceSub + actionSub + growthSub + exposureSub + penalty, with the stated
sub-score tables and the -15 market penalty. -/
theorem rotation_score_matches_spec (distancePct : ℚ) (action : String)
    (growthPct exposureScore : ℚ) (marketExtended : Bool) :
    rotation_score distancePct action growthPct exposureScore marketExtended
      = specScore distancePct action growthPct exposureScore marketExtended := by
  cases marketExtended <;>
    simp [rotation_score, rotation_subtotal, specScore, score_price,
      score_action, sub_eq_add_neg]

/-- C4: for movingAverage ≠ 0 the decision engine is total: it returns one of
the seven concrete outcome triples (no error branch), and the division in the
distance computation is genuine (multiplying back by the average recovers the
numerator). -/
theorem decision_total (price dma : ℚ) (h : dma ≠ 0) :
    csp_equivalent_decision price dma ∈
      [("HOLD CORE", (0 : ℚ), "Extreme extension"),
       ("SELL PARTIAL", SELL_L2_PCT, ">20% above 200 DMA"),
       ("SELL PARTIAL", SELL_L1_PCT, ">15% above 200 DMA"),
       ("SMALL BUY", 0, "Near 200 DMA"),
       ("ACCUMULATE", 0, "Inside virtual CSP buy zone"),
       ("AGGRESSIVE BUY", 0, "Deep discount to 200 DMA"),
       ("WAIT", 0, "No edge")] ∧
    (price - dma) / dma * dma = price - dma := by
  refine ⟨?_, div_mul_cancel₀ _ h⟩
  simp only [csp_equivalent_decision]
  split_ifs <;> simp

/-- Witness for C4 at price 106, movingAverage 100. -/
theorem decision_total_witness :
    (100 : ℚ) ≠ 0 ∧
    (csp_equivalent_decision 106 100 ∈
      [("HOLD CORE", (0 : ℚ), "Extreme extension"),
       ("SELL PARTIAL", SELL_L2_PCT, ">20% above 200 DMA"),
       ("SELL PARTIAL", SELL_L1_PCT, ">15% above 200 DMA"),
       ("SMALL BUY", 0, "Near 200 DMA"),
       ("ACCUMULATE", 0, "Inside virtual CSP buy zone"),
       ("AGGRESSIVE BUY", 0, "Deep discount to 200 DMA"),
       ("WAIT", 0, "No edge")] ∧
     ((106 : ℚ) - 100) / 100 * 100 = 106 - 100) :=
  ⟨by norm_num, decision_total 106 100 (by norm_num)⟩

/-- C5: the rotation score always lies in [0, 100]: the final clamp bounds
the result below by 0 and above by 100 for every input. -/
theorem rotation_score_bounded (distancePct : ℚ) (action : String)
    (growthPct exposureScore : ℚ) (marketExtended : Bool) :
    0 ≤ rotation_score distancePct action growthPct exposureScore marketExtended ∧
    rotation_score distancePct action growthPct exposureScore marketExtended ≤ 100 := by
  simp only [rotation_score]
  exact ⟨le_max_left _ _, max_le (by norm_num) (min_le_left _ _)⟩

/-- C6: the tab-1 post-processing appends the market-wide-extension suffix to
the reason exactly when the Nasdaq distance strictly exceeds 0.12 and the
action starts with "SELL"; it never changes the action or the sell fraction,
and appending the (nonempty) suffix always changes the reason string. -/
theorem market_suffix_annotation (nasdaq_dist price dma : ℚ) :
    (portfolio_row_decision nasdaq_dist price dma).1
      = (csp_equivalent_decision price dma).1 ∧
    (portfolio_row_decision nasdaq_dist price dma).2.1
      = (csp_equivalent_decision price dma).2.1 ∧
    (portfolio_row_decision nasdaq_dist price dma).2.2
      = (if NASDAQ_EXTREME < nasdaq_dist ∧
            ((csp_equivalent_decision price dma).1).startsWith "SELL" = true
         then (csp_equivalent_decision price dma).2.2 ++ " | Market-wide extension"
         else (csp_equivalent_decision price dma).2.2) ∧
    ∀ s : String, s ++ " | Market-wide extension" ≠ s := by
  refine ⟨?_, ?_, ?_, fun s => append_ne_self s _ (by decide)⟩ <;>
    · simp only [portfolio_row_decision]
      split_ifs <;> rfl

/-- C7 counterexample: at price 130, movingAverage 100 the decision is
(HOLD CORE, 0, "Extreme extension"), whose reason does not contain the
lowercase substring "extreme" (containment is case-sensitive). -/
theorem extreme_case_counterexample :
    csp_equivalent_decision 130 100 = ("HOLD CORE", 0, "Extreme extension") ∧
    strContains (csp_equivalent_decision 130 100).2.2 "extreme" = false := by
  have h : csp_equivalent_decision 130 100 = ("HOLD CORE", 0, "Extreme extension") := by
    simp only [csp_equivalent_decision]
    rw [if_pos (by norm_num [SELL_L3])]
  exact ⟨h, by rw [h]; rfl⟩

/-- C7 amended: decide(130, 100) yields distance 0.30, which satisfies the
first branch, and returns HOLD CORE with sell fraction 0 and a reason string
containing "Extreme". -/
theorem extreme_case_amended :
    ((130 : ℚ) - 100) / 100 = 30/100 ∧
    ((130 : ℚ) - 100) / 100 ≥ SELL_L3 ∧
    csp_equivalent_decision 130 100 = ("HOLD CORE", 0, "Extreme extension") ∧
    strContains (csp_equivalent_decision 130 100).2.2 "Extreme" = true := by
  have h : csp_equivalent_decision 130 100 = ("HOLD CORE", 0, "Extreme extension") := by
    simp only [csp_equivalent_decision]
    rw [if_pos (by norm_num [SELL_L3])]
  exact ⟨by norm_num, by norm_num [SELL_L3], h, by rw [h]; rfl⟩

/-- C8: both pure functions are deterministic: identical inputs yield
identical outputs, for the decision engine and for the rotation scorer. -/
theorem engine_deterministic (p m p2 m2 : ℚ) (d : ℚ) (a : String) (g e : ℚ)
    (mkt : Bool) (d2 : ℚ) (a2 : String) (g2 e2 : ℚ) (mkt2 : Bool)
    (h1 : p = p2) (h2 : m = m2) (h3 : d = d2) (h4 : a = a2) (h5 : g = g2)
    (h6 : e = e2) (h7 : mkt = mkt2) :
    csp_equivalent_decision p m = csp_equivalent_decision p2 m2 ∧
    rotation_score d a g e mkt = rotation_score d2 a2 g2 e2 mkt2 := by
  subst h1; subst h2; subst h3; subst h4; subst h5; subst h6; subst h7
  exact ⟨rfl, rfl⟩

/-- Witness for C8 at a concrete repeated input. -/
theorem engine_deterministic_witness :
    csp_equivalent_decision 101 100 = csp_equivalent_decision 101 100 ∧
    rotation_score (-6) "ACCUMULATE" 20 80 false
      = rotation_score (-6) "ACCUMULATE" 20 80 false :=
  engine_deterministic 101 100 101 100 (-6) "ACCUMULATE" 20 80 false
    (-6) "ACCUMULATE" 20 80 false rfl rfl rfl rfl rfl rfl rfl

/-- C9: for movingAverage > 0 the sell fraction is either 0 or 0.25, and it
is 0.25 exactly when the action is SELL PARTIAL. -/
theorem sell_fraction_characterisation (price movingAverage : ℚ)
    (h : 0 < movingAverage) :
    ((csp_equivalent_decision price movingAverage).2.1 = 0 ∨
     (csp_equivalent_decision price movingAverage).2.1 = 25/100) ∧
    ((csp_equivalent_decision price movingAverage).2.1 = 25/100 ↔
     (csp_equivalent_decision price movingAverage).1 = "SELL PARTIAL") := by
  simp only [csp_equivalent_decision, SELL_L1_PCT, SELL_L2_PCT]
  split_ifs <;>
    first
      | exact ⟨Or.inr rfl, iff_of_true rfl rfl⟩
      | exact ⟨Or.inl rfl, iff_of_false (by norm_num) (by decide)⟩

/-- Witness for C9 at price 121, movingAverage 100 (a SELL PARTIAL case). -/
theorem sell_fraction_characterisation_witness :
    (0 : ℚ) < 100 ∧
    (((csp_equivalent_decision 121 100).2.1 = 0 ∨
      (csp_equivalent_decision 121 100).2.1 = 25/100) ∧
     ((csp_equivalent_decision 121 100).2.1 = 25/100 ↔
      (csp_equivalent_decision 121 100).1 = "SELL PARTIAL")) :=
  ⟨by norm_num, sell_fraction_characterisation 121 100 (by norm_num)⟩

/-- C10: the pre-clamp rotation sum never exceeds 95, so the score never
reaches 100 and the upper clamp never binds; without the market penalty the
score equals the raw sub-score sum, so the lower clamp can bind only when the
penalty is applied. -/
theorem upper_clamp_never_binds (distancePct : ℚ) (action : String)
    (growthPct exposureScore : ℚ) (marketExtended : Bool) :
    (if marketExtended then
        rotation_subtotal distancePct action growthPct exposureScore - 15
      else rotation_subtotal distancePct action growthPct exposureScore) ≤ 95 ∧
    rotation_score distancePct action growthPct exposureScore marketExtended ≠ 100 ∧
    min 100 (if marketExtended then
        rotation_subtotal distancePct action growthPct exposureScore - 15
      else rotation_subtotal distancePct action growthPct exposureScore)
      = (if marketExtended then
          rotation_subtotal distancePct action growthPct exposureScore - 15
        else rotation_subtotal distancePct action growthPct exposureScore) ∧
    rotation_score distancePct action growthPct exposureScore false
      = rotation_subtotal distancePct action growthPct exposureScore := by
  have hle := rotation_subtotal_le distancePct action growthPct exposureScore
  have hge := rotation_subtotal_ge distancePct action growthPct exposureScore
  have hpre : (if marketExtended then
      rotation_subtotal distancePct action growthPct exposureScore - 15
    else rotation_subtotal distancePct action growthPct exposureScore) ≤ 95 := by
    split_ifs <;> omega
  refine ⟨hpre, ?_, min_eq_right (by omega), ?_⟩
  · simp only [rotation_score]
    rw [min_eq_right (le_trans hpre (by norm_num))]
    intro hc
    rcases max_choice 0 (if marketExtended then
        rotation_subtotal distancePct action growthPct exposureScore - 15
      else rotation_subtotal distancePct action growthPct exposureScore) with hm | hm <;>
      rw [hm] at hc <;> omega
  · simp only [rotation_score, if_neg Bool.false_ne_true]
    rw [min_eq_right (by omega), max_eq_right (by omega)]

end PortfolioEngine
